import Mathlib

/-
Shallow embedding of the rocRAND C++ host-side facade
(`src/library/include/rocrand.hpp`, namespace `rocrand_cpp`).

The facade wraps an external backend (the rocRAND C API).  The backend is
modelled as an oracle (`Backend`) giving the status each backend entry point
returns.  Each facade operation is embedded as a function returning the list
of backend calls it issues (`List Call`) together with its control-flow
outcome (`Outcome`): normal return, a raised `rocrand_cpp::error`, or
program termination (a C++ exception escaping during stack unwinding).

Floating-point values (`float` / `double` mean and stddev parameters) are
modelled as rationals: the facade never performs arithmetic on them, it only
stores, compares and forwards them to the backend.
-/

set_option autoImplicit false

namespace rocrand_cpp

/-- Modelled from the spec: `rocrand_status` is the backend status enum from
`rocrand.h`, which is not among the embedded sources.  The facade only ever
distinguishes success from everything else, so statuses are numeric codes
with success fixed at `0`. -/
abbrev rocrand_status := Nat

/-- Modelled from the spec: the success status code of the backend. -/
def ROCRAND_STATUS_SUCCESS : rocrand_status := 0

/-- Modelled from the spec: the backend algorithm identifiers from
`rocrand.h` used by the three engine variants of the facade. -/
inductive rocrand_rng_type where
  | ROCRAND_RNG_PSEUDO_PHILOX4_32_10
  | ROCRAND_RNG_PSEUDO_XORWOW
  | ROCRAND_RNG_PSEUDO_MRG32K3A
  deriving DecidableEq

/-- `rocrand_cpp::error` (rocrand.hpp lines 45-95): wraps a backend status
code together with the message string computed at construction time. -/
structure error where
  m_error : rocrand_status
  m_error_string : String
  deriving DecidableEq

/-- `error::to_string` (lines 79-90): the switch has no case besides
`default`, which streams `"Unknown rocRAND Error (" << error << ")"`;
streaming the status enum prints its numeric value. -/
def error.to_string (e : rocrand_status) : String :=
  "Unknown rocRAND Error (" ++ toString e ++ ")"

/-- The `error` constructor (lines 50-55): initialises `m_error` with the
status and `m_error_string` with `to_string(error)`. -/
def error.fromStatus (e : rocrand_status) : error :=
  { m_error := e, m_error_string := error.to_string e }

/-- `error::error_code` (lines 62-65). -/
def error.error_code (e : error) : rocrand_status :=
  e.m_error

/-- `error::error_string` (lines 68-71). -/
def error.error_string (e : error) : String :=
  e.m_error_string

/-- `error::what` (lines 74-77): returns the C string of `m_error_string`. -/
def error.what (e : error) : String :=
  e.m_error_string

/-- One backend call issued by the facade, with the arguments the facade
passes (handle and output-pointer arguments carry no information in the
model; sizes, seeds, offsets and distribution parameters do). -/
inductive Call where
  | rocrand_create_generator (rng_type : rocrand_rng_type)
  | rocrand_destroy_generator
  | rocrand_set_stream (stream : Nat)
  | rocrand_set_seed (seed : Nat)
  | rocrand_set_offset (offs : Nat)
  | rocrand_generate (size : Nat)
  | rocrand_generate_uniform (size : Nat)
  | rocrand_generate_uniform_double (size : Nat)
  | rocrand_generate_normal (size : Nat) (mean stddev : Rat)
  | rocrand_generate_normal_double (size : Nat) (mean stddev : Rat)
  deriving DecidableEq

/-- Control-flow outcome of one facade operation: normal return, a raised
`rocrand_cpp::error`, or program termination (a C++ exception escaping
while stack unwinding is already in progress). -/
inductive Outcome where
  | ok
  | raised (e : error)
  | terminated
  deriving DecidableEq

/-- The backend oracle: the status each backend entry point returns when the
facade invokes it. -/
structure Backend where
  create_status : rocrand_rng_type → rocrand_status
  destroy_status : rocrand_status
  set_stream_status : rocrand_status
  set_seed_status : rocrand_status
  set_offset_status : rocrand_status
  generate_status : rocrand_status
  generate_uniform_status : rocrand_status
  generate_uniform_double_status : rocrand_status
  generate_normal_status : rocrand_status
  generate_normal_double_status : rocrand_status

/-- `detail::rng_engine::rng_engine` (lines 105-110): calls
`rocrand_create_generator` and throws `error(status)` on non-success. -/
def rng_engine_ctor (b : Backend) (GeneratorType : rocrand_rng_type) :
    List Call × Outcome :=
  let status := b.create_status GeneratorType
  ([Call.rocrand_create_generator GeneratorType],
    if status ≠ ROCRAND_STATUS_SUCCESS then Outcome.raised (error.fromStatus status)
    else Outcome.ok)

/-- `detail::rng_engine::~rng_engine` (lines 112-116): calls
`rocrand_destroy_generator` and executes `throw error(status)` on
non-success.  The model records the raised error exactly as written; note
that in C++11 a destructor is implicitly `noexcept`, so at run time this
throw terminates the program instead of propagating. -/
def rng_engine_dtor (b : Backend) : List Call × Outcome :=
  ([Call.rocrand_destroy_generator],
    if b.destroy_status ≠ ROCRAND_STATUS_SUCCESS then
      Outcome.raised (error.fromStatus b.destroy_status)
    else Outcome.ok)

/-- `detail::rng_engine::stream` (lines 118-122). -/
def rng_engine_stream (b : Backend) (value : Nat) : List Call × Outcome :=
  ([Call.rocrand_set_stream value],
    if b.set_stream_status ≠ ROCRAND_STATUS_SUCCESS then
      Outcome.raised (error.fromStatus b.set_stream_status)
    else Outcome.ok)

/-- `detail::prng_engine::seed` (lines 154-158). -/
def prng_engine_seed (b : Backend) (value : Nat) : List Call × Outcome :=
  ([Call.rocrand_set_seed value],
    if b.set_seed_status ≠ ROCRAND_STATUS_SUCCESS then
      Outcome.raised (error.fromStatus b.set_seed_status)
    else Outcome.ok)

/-- `detail::prng_engine::offset` (lines 160-164). -/
def prng_engine_offset (b : Backend) (value : Nat) : List Call × Outcome :=
  ([Call.rocrand_set_offset value],
    if b.set_offset_status ≠ ROCRAND_STATUS_SUCCESS then
      Outcome.raised (error.fromStatus b.set_offset_status)
    else Outcome.ok)

/-- C++ stack unwinding after the constructor body of `prng_engine` throws:
the completed base subobject `rng_engine` is destroyed, issuing its
`rocrand_destroy_generator` call.  If the base destructor itself exits by an
exception while unwinding is in progress, C++ terminates the program;
otherwise the pending exception keeps propagating. -/
def unwindBase (b : Backend) (pending : Outcome) : List Call × Outcome :=
  let d := rng_engine_dtor b
  (d.1, match d.2 with
    | Outcome.ok => pending
    | _ => Outcome.terminated)

/-- `detail::prng_engine::prng_engine` (lines 139-148): runs the base
`rng_engine` constructor, then `this->seed(seed_value)`, then — only when
`offset_value > 0` — `this->offset(offset_value)`.  A throw from the
constructor body destroys the completed base subobject (`unwindBase`). -/
def prng_engine_ctor (b : Backend) (GeneratorType : rocrand_rng_type)
    (DefaultSeed : Nat) (seed_value : Nat) (offset_value : Nat) :
    List Call × Outcome :=
  let _ := DefaultSeed
  match rng_engine_ctor b GeneratorType with
  | (tr0, Outcome.ok) =>
    match prng_engine_seed b seed_value with
    | (tr1, Outcome.ok) =>
      if offset_value > 0 then
        match prng_engine_offset b offset_value with
        | (tr2, Outcome.ok) => (tr0 ++ tr1 ++ tr2, Outcome.ok)
        | (tr2, pending) =>
          let u := unwindBase b pending
          (tr0 ++ tr1 ++ tr2 ++ u.1, u.2)
      else
        (tr0 ++ tr1, Outcome.ok)
    | (tr1, pending) =>
      let u := unwindBase b pending
      (tr0 ++ tr1 ++ u.1, u.2)
  | (tr0, pending) => (tr0, pending)

/-- A `prng_engine` constructor call with both arguments defaulted
(`seed_value = DefaultSeed`, `offset_value = 0`, line 139-140). -/
def prng_engine_ctor_defaults (b : Backend) (GeneratorType : rocrand_rng_type)
    (DefaultSeed : Nat) : List Call × Outcome :=
  prng_engine_ctor b GeneratorType DefaultSeed DefaultSeed 0

/-- Modelled from the spec: `ROCRAND_PHILOX4x32_DEFAULT_SEED` is defined in
`rocrand_kernel.h`, which is not among the embedded sources, and the spec
does not state its value; an arbitrary placeholder stands in for it.  Every
theorem about default seeding depends only on the constant being forwarded,
never on its numeric value. -/
def ROCRAND_PHILOX4x32_DEFAULT_SEED : Nat := 0

/-- Modelled from the spec: `ROCRAND_XORWOW_DEFAULT_SEED`, placeholder value
(see `ROCRAND_PHILOX4x32_DEFAULT_SEED`). -/
def ROCRAND_XORWOW_DEFAULT_SEED : Nat := 1

/-- Modelled from the spec: `ROCRAND_MRG32K3A_DEFAULT_SEED`, placeholder
value (see `ROCRAND_PHILOX4x32_DEFAULT_SEED`). -/
def ROCRAND_MRG32K3A_DEFAULT_SEED : Nat := 2

/-- `philox4x32_10_engine` (lines 338-352): `prng_engine` instantiated at
`ROCRAND_RNG_PSEUDO_PHILOX4_32_10` with `ROCRAND_PHILOX4x32_DEFAULT_SEED`;
its constructors are inherited (`using base_type::base_type`). -/
def philox4x32_10_engine_ctor (b : Backend) (seed_value offset_value : Nat) :
    List Call × Outcome :=
  prng_engine_ctor b rocrand_rng_type.ROCRAND_RNG_PSEUDO_PHILOX4_32_10
    ROCRAND_PHILOX4x32_DEFAULT_SEED seed_value offset_value

/-- `philox4x32_10_engine` construction with no arguments. -/
def philox4x32_10_engine_ctor_defaults (b : Backend) : List Call × Outcome :=
  philox4x32_10_engine_ctor b ROCRAND_PHILOX4x32_DEFAULT_SEED 0

/-- `xorwow_engine` (lines 354-368). -/
def xorwow_engine_ctor (b : Backend) (seed_value offset_value : Nat) :
    List Call × Outcome :=
  prng_engine_ctor b rocrand_rng_type.ROCRAND_RNG_PSEUDO_XORWOW
    ROCRAND_XORWOW_DEFAULT_SEED seed_value offset_value

/-- `xorwow_engine` construction with no arguments. -/
def xorwow_engine_ctor_defaults (b : Backend) : List Call × Outcome :=
  xorwow_engine_ctor b ROCRAND_XORWOW_DEFAULT_SEED 0

/-- `mrg32k3a_engine` (lines 370-384). -/
def mrg32k3a_engine_ctor (b : Backend) (seed_value offset_value : Nat) :
    List Call × Outcome :=
  prng_engine_ctor b rocrand_rng_type.ROCRAND_RNG_PSEUDO_MRG32K3A
    ROCRAND_MRG32K3A_DEFAULT_SEED seed_value offset_value

/-- `mrg32k3a_engine` construction with no arguments. -/
def mrg32k3a_engine_ctor_defaults (b : Backend) : List Call × Outcome :=
  mrg32k3a_engine_ctor b ROCRAND_MRG32K3A_DEFAULT_SEED 0

/-- The C++ element types a caller could try to instantiate
`uniform_int_distribution<IntType>` with in this development. -/
inductive CType where
  | unsigned_int
  | signed_int
  | unsigned_long_long
  | float
  | double
  deriving DecidableEq

/-- The condition of the `static_assert` in the
`uniform_int_distribution` constructor (lines 175-181):
`std::is_same<unsigned int, IntType>::value`. -/
def uniform_int_distribution_static_assert (IntType : CType) : Bool :=
  IntType == CType.unsigned_int

/-- Instantiating `uniform_int_distribution<IntType>`: the template is
accepted at build time exactly when the constructor's `static_assert`
condition holds; rejection is a compile error (`none`), never a run-time
`error`. -/
def uniform_int_distribution_instantiate (IntType : CType) : Option Unit :=
  if uniform_int_distribution_static_assert IntType then some () else none

/-- `uniform_int_distribution::operator()` (lines 187-192): calls
`rocrand_generate` and throws `error(status)` on non-success. -/
def uniform_int_distribution_apply (b : Backend) (size : Nat) :
    List Call × Outcome :=
  ([Call.rocrand_generate size],
    if b.generate_status ≠ ROCRAND_STATUS_SUCCESS then
      Outcome.raised (error.fromStatus b.generate_status)
    else Outcome.ok)

/-- `uniform_int_distribution::reset` (lines 183-185): the body is empty, so
the call issues no backend call (and the distribution has no state). -/
def uniform_int_distribution_reset : List Call := []

/-- The two floating element types the real-valued distribution templates
can be instantiated with (their `static_assert` admits exactly these). -/
inductive FpType where
  | float
  | double
  deriving DecidableEq

/-- `uniform_real_distribution::operator()` (lines 214-220) together with
the two private `generate` overloads (lines 222-233): the overload is
selected by the static element type, calling `rocrand_generate_uniform` for
`float` and `rocrand_generate_uniform_double` for `double`; a non-success
status is thrown as `error(status)`. -/
def uniform_real_distribution_apply (RealType : FpType) (b : Backend)
    (size : Nat) : List Call × Outcome :=
  match RealType with
  | FpType.float =>
    ([Call.rocrand_generate_uniform size],
      if b.generate_uniform_status ≠ ROCRAND_STATUS_SUCCESS then
        Outcome.raised (error.fromStatus b.generate_uniform_status)
      else Outcome.ok)
  | FpType.double =>
    ([Call.rocrand_generate_uniform_double size],
      if b.generate_uniform_double_status ≠ ROCRAND_STATUS_SUCCESS then
        Outcome.raised (error.fromStatus b.generate_uniform_double_status)
      else Outcome.ok)

/-- `uniform_real_distribution::reset` (lines 210-212): empty body. -/
def uniform_real_distribution_reset : List Call := []

/-- `normal_distribution::param_type` (lines 242-274): a pair of
mean / stddev values. -/
structure param_type where
  m_mean : Rat
  m_stddev : Rat
  deriving DecidableEq

/-- The `param_type` constructor (lines 246-250); the C++ defaults are
`mean = 0.0`, `stddev = 1.0`. -/
def param_type.ctor (mean stddev : Rat) : param_type :=
  { m_mean := mean, m_stddev := stddev }

/-- `param_type::mean` (lines 252-255). -/
def param_type.mean (p : param_type) : Rat :=
  p.m_mean

/-- `param_type::stddev` (lines 257-260). -/
def param_type.stddev (p : param_type) : Rat :=
  p.m_stddev

/-- `param_type::operator==` (lines 262-265):
`m_mean == other.m_mean && m_stddev == other.m_stddev`. -/
def param_type.eq (p other : param_type) : Bool :=
  p.m_mean == other.m_mean && p.m_stddev == other.m_stddev

/-- `param_type::operator!=` (lines 267-270). -/
def param_type.ne (p other : param_type) : Bool :=
  !(param_type.eq p other)

/-- `normal_distribution` (lines 236-336): its only state is `m_params`;
the element type is the template parameter, passed separately to `apply`. -/
structure normal_distribution where
  m_params : param_type
  deriving DecidableEq

/-- The `normal_distribution` constructor (lines 276-284); the C++ defaults
are `mean = 0.0`, `stddev = 1.0`. -/
def normal_distribution.ctor (mean stddev : Rat) : normal_distribution :=
  { m_params := param_type.ctor mean stddev }

/-- `normal_distribution::mean` (lines 290-293). -/
def normal_distribution.mean (d : normal_distribution) : Rat :=
  d.m_params.mean

/-- `normal_distribution::stddev` (lines 295-298). -/
def normal_distribution.stddev (d : normal_distribution) : Rat :=
  d.m_params.stddev

/-- `normal_distribution::param()` (lines 300-303). -/
def normal_distribution.param_get (d : normal_distribution) : param_type :=
  d.m_params

/-- `normal_distribution::param(const param_type&)` (lines 305-308). -/
def normal_distribution.param_set (d : normal_distribution)
    (params : param_type) : normal_distribution :=
  { d with m_params := params }

/-- `normal_distribution::reset` (lines 286-288): empty body — no backend
call and the distribution state is returned unchanged. -/
def normal_distribution.reset (d : normal_distribution) :
    normal_distribution × List Call :=
  (d, [])

/-- `normal_distribution::operator()` (lines 310-316) together with the two
private `generate` overloads (lines 319-333): the overload is selected by
the static element type, calling `rocrand_generate_normal` for `float` and
`rocrand_generate_normal_double` for `double`, forwarding `this->mean()` and
`this->stddev()`; a non-success status is thrown as `error(status)`. -/
def normal_distribution.apply (RealType : FpType) (d : normal_distribution)
    (b : Backend) (size : Nat) : List Call × Outcome :=
  match RealType with
  | FpType.float =>
    ([Call.rocrand_generate_normal size d.mean d.stddev],
      if b.generate_normal_status ≠ ROCRAND_STATUS_SUCCESS then
        Outcome.raised (error.fromStatus b.generate_normal_status)
      else Outcome.ok)
  | FpType.double =>
    ([Call.rocrand_generate_normal_double size d.mean d.stddev],
      if b.generate_normal_double_status ≠ ROCRAND_STATUS_SUCCESS then
        Outcome.raised (error.fromStatus b.generate_normal_double_status)
      else Outcome.ok)

/-- Number of `rocrand_set_seed` calls in a trace. -/
def countSetSeed (tr : List Call) : Nat :=
  (tr.filter fun c => match c with
    | Call.rocrand_set_seed _ => true
    | _ => false).length

/-- Number of `rocrand_set_offset` calls in a trace. -/
def countSetOffset (tr : List Call) : Nat :=
  (tr.filter fun c => match c with
    | Call.rocrand_set_offset _ => true
    | _ => false).length

/-- Number of `rocrand_destroy_generator` calls in a trace. -/
def countDestroy (tr : List Call) : Nat :=
  (tr.filter fun c => match c with
    | Call.rocrand_destroy_generator => true
    | _ => false).length

/-- Number of `rocrand_create_generator` calls in a trace that the backend
answered with success — the number of backend resources brought into
existence along the trace. -/
def countSuccessfulCreate (b : Backend) (tr : List Call) : Nat :=
  (tr.filter fun c => match c with
    | Call.rocrand_create_generator t => b.create_status t == ROCRAND_STATUS_SUCCESS
    | _ => false).length

/-- A backend oracle answering success to every call; concrete instances for
witnesses are built from it by overriding single statuses. -/
def okBackend : Backend where
  create_status := fun _ => ROCRAND_STATUS_SUCCESS
  destroy_status := ROCRAND_STATUS_SUCCESS
  set_stream_status := ROCRAND_STATUS_SUCCESS
  set_seed_status := ROCRAND_STATUS_SUCCESS
  set_offset_status := ROCRAND_STATUS_SUCCESS
  generate_status := ROCRAND_STATUS_SUCCESS
  generate_uniform_status := ROCRAND_STATUS_SUCCESS
  generate_uniform_double_status := ROCRAND_STATUS_SUCCESS
  generate_normal_status := ROCRAND_STATUS_SUCCESS
  generate_normal_double_status := ROCRAND_STATUS_SUCCESS

end rocrand_cpp

namespace rocrand_cpp

/-- C8: for every backend status code, the Error's message is computed at
construction time by a lookup recognising no specific codes: the message is
always the generic fallback string embedding the numeric code, and both
`error_string()` and `what()` report that same string. -/
theorem C8_error_message (s : rocrand_status) :
    error.to_string s = "Unknown rocRAND Error (" ++ toString s ++ ")"
  ∧ (error.fromStatus s).m_error_string = error.to_string s
  ∧ error.error_string (error.fromStatus s)
      = "Unknown rocRAND Error (" ++ toString s ++ ")"
  ∧ error.what (error.fromStatus s) = error.error_string (error.fromStatus s) :=
  ⟨rfl, rfl, rfl, rfl⟩

/-- C9: `reset()` on each of the three distributions performs no backend
call and leaves the distribution's observable state unchanged; the normal
distribution's mean/stddev parameters persist until replaced through
`param(new_params)`, which installs exactly the supplied parameters. -/
theorem C9_reset_noop (d : normal_distribution) (p : param_type) :
    uniform_int_distribution_reset = ([] : List Call)
  ∧ uniform_real_distribution_reset = ([] : List Call)
  ∧ normal_distribution.reset d = (d, ([] : List Call))
  ∧ (normal_distribution.reset d).1.mean = d.mean
  ∧ (normal_distribution.reset d).1.stddev = d.stddev
  ∧ normal_distribution.param_get (normal_distribution.param_set d p) = p :=
  ⟨rfl, rfl, rfl, rfl, rfl, rfl⟩

/-- C6: the normal-real apply call dispatches to the float-specific backend
entry point for `float` and the double-specific one for `double`, in both
cases forwarding the distribution's current mean and standard deviation —
in particular the values installed by the latest `param(p)`. -/
theorem C6_normal_dispatch (d : normal_distribution) (p : param_type)
    (b : Backend) (sz : Nat) :
    (normal_distribution.apply FpType.float d b sz).1
      = [Call.rocrand_generate_normal sz d.mean d.stddev]
  ∧ (normal_distribution.apply FpType.double d b sz).1
      = [Call.rocrand_generate_normal_double sz d.mean d.stddev]
  ∧ (normal_distribution.apply FpType.float (normal_distribution.param_set d p) b sz).1
      = [Call.rocrand_generate_normal sz p.mean p.stddev]
  ∧ (normal_distribution.apply FpType.double (normal_distribution.param_set d p) b sz).1
      = [Call.rocrand_generate_normal_double sz p.mean p.stddev] :=
  ⟨rfl, rfl, rfl, rfl⟩

/-- C7: `param(p)` followed by `param()` returns exactly `p`, and two
`param_type` values are `operator==`-equal iff both their means and their
standard deviations match exactly. -/
theorem C7_param_roundtrip (d : normal_distribution) (p q : param_type) :
    normal_distribution.param_get (normal_distribution.param_set d p) = p
  ∧ (param_type.eq p q = true ↔ (p.m_mean = q.m_mean ∧ p.m_stddev = q.m_stddev)) := by
  refine ⟨rfl, ?_⟩
  simp [param_type.eq]

/-- Witness for C7 at concrete parameters. -/
theorem C7_witness :
    normal_distribution.param_get
        (normal_distribution.param_set (normal_distribution.ctor 0 1) (param_type.ctor 2 3))
      = param_type.ctor 2 3 :=
  (C7_param_roundtrip (normal_distribution.ctor 0 1) (param_type.ctor 2 3)
    (param_type.ctor 2 3)).1

/-- C5: instantiating `uniform_int_distribution` with any element type other
than `unsigned int` is rejected by the constructor's static assertion at
build time (no instantiation exists, and no run-time `error` is involved);
for `unsigned int` the instantiation is accepted, and its apply call can
only raise errors wrapping the backend's own status. -/
theorem C5_uniform_int_build_time (IntType : CType) (b : Backend) (sz : Nat) :
    (uniform_int_distribution_instantiate IntType).isSome
      = uniform_int_distribution_static_assert IntType
  ∧ uniform_int_distribution_instantiate CType.unsigned_int = some ()
  ∧ (IntType ≠ CType.unsigned_int →
        uniform_int_distribution_instantiate IntType = none)
  ∧ (uniform_int_distribution_apply b sz).2
      = (if b.generate_status = ROCRAND_STATUS_SUCCESS then Outcome.ok
         else Outcome.raised (error.fromStatus b.generate_status)) := by
  refine ⟨?_, rfl, ?_, ?_⟩
  · cases IntType <;> rfl
  · intro h
    cases IntType
    · exact absurd rfl h
    all_goals rfl
  · by_cases hg : b.generate_status = ROCRAND_STATUS_SUCCESS <;>
      simp [uniform_int_distribution_apply, hg]

/-- Witness for C5: the `float` instantiation is rejected at build time. -/
theorem C5_witness :
    uniform_int_distribution_instantiate CType.float = none :=
  (C5_uniform_int_build_time CType.float okBackend 1).2.2.1 (by decide)

end rocrand_cpp

namespace rocrand_cpp

/-- C1: every backend-facing facade operation — engine construction, set
stream, set seed, set offset, and each of the five distribution apply
entry points — returns normally when its backend call reports success, and
otherwise raises an Error whose `error_code()` is exactly the status the
backend returned. -/
theorem C1_error_propagation (b : Backend) (t : rocrand_rng_type)
    (v sz : Nat) (d : normal_distribution) :
    ((rng_engine_ctor b t).2
      = if b.create_status t = ROCRAND_STATUS_SUCCESS then Outcome.ok
        else Outcome.raised (error.fromStatus (b.create_status t)))
  ∧ ((rng_engine_stream b v).2
      = if b.set_stream_status = ROCRAND_STATUS_SUCCESS then Outcome.ok
        else Outcome.raised (error.fromStatus b.set_stream_status))
  ∧ ((prng_engine_seed b v).2
      = if b.set_seed_status = ROCRAND_STATUS_SUCCESS then Outcome.ok
        else Outcome.raised (error.fromStatus b.set_seed_status))
  ∧ ((prng_engine_offset b v).2
      = if b.set_offset_status = ROCRAND_STATUS_SUCCESS then Outcome.ok
        else Outcome.raised (error.fromStatus b.set_offset_status))
  ∧ ((uniform_int_distribution_apply b sz).2
      = if b.generate_status = ROCRAND_STATUS_SUCCESS then Outcome.ok
        else Outcome.raised (error.fromStatus b.generate_status))
  ∧ ((uniform_real_distribution_apply FpType.float b sz).2
      = if b.generate_uniform_status = ROCRAND_STATUS_SUCCESS then Outcome.ok
        else Outcome.raised (error.fromStatus b.generate_uniform_status))
  ∧ ((uniform_real_distribution_apply FpType.double b sz).2
      = if b.generate_uniform_double_status = ROCRAND_STATUS_SUCCESS then Outcome.ok
        else Outcome.raised (error.fromStatus b.generate_uniform_double_status))
  ∧ ((normal_distribution.apply FpType.float d b sz).2
      = if b.generate_normal_status = ROCRAND_STATUS_SUCCESS then Outcome.ok
        else Outcome.raised (error.fromStatus b.generate_normal_status))
  ∧ ((normal_distribution.apply FpType.double d b sz).2
      = if b.generate_normal_double_status = ROCRAND_STATUS_SUCCESS then Outcome.ok
        else Outcome.raised (error.fromStatus b.generate_normal_double_status))
  ∧ (∀ s, error.error_code (error.fromStatus s) = s) := by
  refine ⟨?_, ?_, ?_, ?_, ?_, ?_, ?_, ?_, ?_, fun _ => rfl⟩
  · by_cases h : b.create_status t = ROCRAND_STATUS_SUCCESS <;>
      simp [rng_engine_ctor, h]
  · by_cases h : b.set_stream_status = ROCRAND_STATUS_SUCCESS <;>
      simp [rng_engine_stream, h]
  · by_cases h : b.set_seed_status = ROCRAND_STATUS_SUCCESS <;>
      simp [prng_engine_seed, h]
  · by_cases h : b.set_offset_status = ROCRAND_STATUS_SUCCESS <;>
      simp [prng_engine_offset, h]
  · by_cases h : b.generate_status = ROCRAND_STATUS_SUCCESS <;>
      simp [uniform_int_distribution_apply, h]
  · by_cases h : b.generate_uniform_status = ROCRAND_STATUS_SUCCESS <;>
      simp [uniform_real_distribution_apply, h]
  · by_cases h : b.generate_uniform_double_status = ROCRAND_STATUS_SUCCESS <;>
      simp [uniform_real_distribution_apply, h]
  · by_cases h : b.generate_normal_status = ROCRAND_STATUS_SUCCESS <;>
      simp [normal_distribution.apply, h]
  · by_cases h : b.generate_normal_double_status = ROCRAND_STATUS_SUCCESS <;>
      simp [normal_distribution.apply, h]

/-- C2: when the backend's create call fails during engine construction, the
constructor raises an Error carrying exactly that status, the trace consists
of the single failed create call, no destroy call is ever issued, and no
backend resource exists afterward. -/
theorem C2_create_failure (b : Backend) (t : rocrand_rng_type) (d sv ov : Nat)
    (h : b.create_status t ≠ ROCRAND_STATUS_SUCCESS) :
    prng_engine_ctor b t d sv ov
      = ([Call.rocrand_create_generator t],
         Outcome.raised (error.fromStatus (b.create_status t)))
  ∧ error.error_code (error.fromStatus (b.create_status t)) = b.create_status t
  ∧ countDestroy (prng_engine_ctor b t d sv ov).1 = 0
  ∧ countSuccessfulCreate b (prng_engine_ctor b t d sv ov).1 = 0 := by
  have e1 : prng_engine_ctor b t d sv ov
      = ([Call.rocrand_create_generator t],
         Outcome.raised (error.fromStatus (b.create_status t))) := by
    simp [prng_engine_ctor, rng_engine_ctor, h]
  refine ⟨e1, rfl, ?_, ?_⟩
  · rw [e1]; rfl
  · rw [e1]; simp [countSuccessfulCreate, h]

/-- Witness for C2: a backend whose create call answers status 3. -/
theorem C2_witness :
    prng_engine_ctor { okBackend with create_status := fun _ => 3 }
        rocrand_rng_type.ROCRAND_RNG_PSEUDO_PHILOX4_32_10 1 1 0
      = ([Call.rocrand_create_generator rocrand_rng_type.ROCRAND_RNG_PSEUDO_PHILOX4_32_10],
         Outcome.raised (error.fromStatus 3)) :=
  (C2_create_failure { okBackend with create_status := fun _ => 3 }
    rocrand_rng_type.ROCRAND_RNG_PSEUDO_PHILOX4_32_10 1 1 0 (by decide)).1

/-- C3 (divergence witness): on a backend whose destroy call answers status
7, the engine destructor issues the release call and then raises
`error(7)` — the written `throw` in `~rng_engine`; under C++11 rules this
throw escapes an implicitly `noexcept` destructor and terminates the
program instead of being merely reported. -/
theorem C3_destructor_raises :
    rng_engine_dtor { okBackend with destroy_status := 7 }
      = ([Call.rocrand_destroy_generator], Outcome.raised (error.fromStatus 7)) := by
  rfl

end rocrand_cpp

namespace rocrand_cpp

/-- C4: under a succeeding create call, every engine construction issues
exactly one backend set-seed call; when seed configuration succeeds, each of
the three variants constructed with no arguments seeds the backend with its
documented default seed constant, an explicit seed with offset zero issues
no set-offset call, and a positive offset issues exactly one set-offset call
carrying that value. -/
theorem C4_default_seed_and_offset (b : Backend) (t : rocrand_rng_type)
    (d sv ov : Nat)
    (h1 : ∀ t', b.create_status t' = ROCRAND_STATUS_SUCCESS) :
    countSetSeed (prng_engine_ctor b t d sv ov).1 = 1
  ∧ (b.set_seed_status = ROCRAND_STATUS_SUCCESS →
        (philox4x32_10_engine_ctor_defaults b).1
          = [Call.rocrand_create_generator rocrand_rng_type.ROCRAND_RNG_PSEUDO_PHILOX4_32_10,
             Call.rocrand_set_seed ROCRAND_PHILOX4x32_DEFAULT_SEED]
      ∧ (xorwow_engine_ctor_defaults b).1
          = [Call.rocrand_create_generator rocrand_rng_type.ROCRAND_RNG_PSEUDO_XORWOW,
             Call.rocrand_set_seed ROCRAND_XORWOW_DEFAULT_SEED]
      ∧ (mrg32k3a_engine_ctor_defaults b).1
          = [Call.rocrand_create_generator rocrand_rng_type.ROCRAND_RNG_PSEUDO_MRG32K3A,
             Call.rocrand_set_seed ROCRAND_MRG32K3A_DEFAULT_SEED]
      ∧ (prng_engine_ctor b t d sv 0).1
          = [Call.rocrand_create_generator t, Call.rocrand_set_seed sv]
      ∧ countSetOffset (prng_engine_ctor b t d sv ov).1
          = (if 0 < ov then 1 else 0)
      ∧ (0 < ov →
            Call.rocrand_set_offset ov ∈ (prng_engine_ctor b t d sv ov).1)) := by
  constructor
  · by_cases hs : b.set_seed_status = ROCRAND_STATUS_SUCCESS
    · by_cases ho : 0 < ov
      · by_cases hoff : b.set_offset_status = ROCRAND_STATUS_SUCCESS
        · simp [prng_engine_ctor, rng_engine_ctor, prng_engine_seed,
            prng_engine_offset, unwindBase, rng_engine_dtor, h1, hs, ho, hoff,
            countSetSeed]
        · simp [prng_engine_ctor, rng_engine_ctor, prng_engine_seed,
            prng_engine_offset, unwindBase, rng_engine_dtor, h1, hs, ho, hoff,
            countSetSeed]
      · simp [prng_engine_ctor, rng_engine_ctor, prng_engine_seed,
          unwindBase, rng_engine_dtor, h1, hs, ho, countSetSeed]
    · simp [prng_engine_ctor, rng_engine_ctor, prng_engine_seed,
        unwindBase, rng_engine_dtor, h1, hs, countSetSeed]
  · intro h2
    refine ⟨?_, ?_, ?_, ?_, ?_, ?_⟩
    · simp [philox4x32_10_engine_ctor_defaults, philox4x32_10_engine_ctor,
        prng_engine_ctor, rng_engine_ctor, prng_engine_seed, h1, h2]
    · simp [xorwow_engine_ctor_defaults, xorwow_engine_ctor,
        prng_engine_ctor, rng_engine_ctor, prng_engine_seed, h1, h2]
    · simp [mrg32k3a_engine_ctor_defaults, mrg32k3a_engine_ctor,
        prng_engine_ctor, rng_engine_ctor, prng_engine_seed, h1, h2]
    · simp [prng_engine_ctor, rng_engine_ctor, prng_engine_seed, h1, h2]
    · by_cases ho : 0 < ov
      · by_cases hoff : b.set_offset_status = ROCRAND_STATUS_SUCCESS
        · simp [prng_engine_ctor, rng_engine_ctor, prng_engine_seed,
            prng_engine_offset, unwindBase, rng_engine_dtor, h1, h2, ho, hoff,
            countSetOffset]
        · simp [prng_engine_ctor, rng_engine_ctor, prng_engine_seed,
            prng_engine_offset, unwindBase, rng_engine_dtor, h1, h2, ho, hoff,
            countSetOffset]
      · simp [prng_engine_ctor, rng_engine_ctor, prng_engine_seed,
          unwindBase, rng_engine_dtor, h1, h2, ho, countSetOffset]
    · intro hov
      by_cases hoff : b.set_offset_status = ROCRAND_STATUS_SUCCESS
      · simp [prng_engine_ctor, rng_engine_ctor, prng_engine_seed,
          prng_engine_offset, unwindBase, rng_engine_dtor, h1, h2, hov, hoff]
      · simp [prng_engine_ctor, rng_engine_ctor, prng_engine_seed,
          prng_engine_offset, unwindBase, rng_engine_dtor, h1, h2, hov, hoff]

/-- Witness for C4: an all-success backend, explicit seed 5 and offset 7. -/
theorem C4_witness :
    countSetSeed (prng_engine_ctor okBackend
        rocrand_rng_type.ROCRAND_RNG_PSEUDO_PHILOX4_32_10 1 5 7).1 = 1 :=
  (C4_default_seed_and_offset okBackend
    rocrand_rng_type.ROCRAND_RNG_PSEUDO_PHILOX4_32_10 1 5 7 (fun _ => rfl)).1

/-- C10: when create succeeds but a configuration call of the constructor
fails (set-seed, or set-offset for a positive offset), the constructor
raises an Error carrying the failing status and the already-created backend
resource is released by exactly one destroy call issued while unwinding
(stated under a succeeding release call, without which C++ would terminate
the program during unwinding). -/
theorem C10_config_failure_cleanup (b : Backend) (t : rocrand_rng_type)
    (d sv ov : Nat)
    (h1 : b.create_status t = ROCRAND_STATUS_SUCCESS)
    (h2 : b.destroy_status = ROCRAND_STATUS_SUCCESS) :
    (b.set_seed_status ≠ ROCRAND_STATUS_SUCCESS →
        prng_engine_ctor b t d sv ov
          = ([Call.rocrand_create_generator t, Call.rocrand_set_seed sv,
              Call.rocrand_destroy_generator],
             Outcome.raised (error.fromStatus b.set_seed_status))
      ∧ countDestroy (prng_engine_ctor b t d sv ov).1 = 1)
  ∧ (b.set_seed_status = ROCRAND_STATUS_SUCCESS →
     b.set_offset_status ≠ ROCRAND_STATUS_SUCCESS → 0 < ov →
        prng_engine_ctor b t d sv ov
          = ([Call.rocrand_create_generator t, Call.rocrand_set_seed sv,
              Call.rocrand_set_offset ov, Call.rocrand_destroy_generator],
             Outcome.raised (error.fromStatus b.set_offset_status))
      ∧ countDestroy (prng_engine_ctor b t d sv ov).1 = 1) := by
  constructor
  · intro hs
    have e1 : prng_engine_ctor b t d sv ov
        = ([Call.rocrand_create_generator t, Call.rocrand_set_seed sv,
            Call.rocrand_destroy_generator],
           Outcome.raised (error.fromStatus b.set_seed_status)) := by
      simp [prng_engine_ctor, rng_engine_ctor, prng_engine_seed,
        unwindBase, rng_engine_dtor, h1, h2, hs]
    exact ⟨e1, by rw [e1]; rfl⟩
  · intro hs ho hov
    have e1 : prng_engine_ctor b t d sv ov
        = ([Call.rocrand_create_generator t, Call.rocrand_set_seed sv,
            Call.rocrand_set_offset ov, Call.rocrand_destroy_generator],
           Outcome.raised (error.fromStatus b.set_offset_status)) := by
      simp [prng_engine_ctor, rng_engine_ctor, prng_engine_seed,
        prng_engine_offset, unwindBase, rng_engine_dtor, h1, h2, hs, ho, hov]
    exact ⟨e1, by rw [e1]; rfl⟩

/-- Witness for C10: a backend whose set-seed call answers status 3. -/
theorem C10_witness :
    prng_engine_ctor { okBackend with set_seed_status := 3 }
        rocrand_rng_type.ROCRAND_RNG_PSEUDO_XORWOW 1 5 0
      = ([Call.rocrand_create_generator rocrand_rng_type.ROCRAND_RNG_PSEUDO_XORWOW,
          Call.rocrand_set_seed 5, Call.rocrand_destroy_generator],
         Outcome.raised (error.fromStatus 3))
  ∧ countDestroy (prng_engine_ctor { okBackend with set_seed_status := 3 }
        rocrand_rng_type.ROCRAND_RNG_PSEUDO_XORWOW 1 5 0).1 = 1 :=
  (C10_config_failure_cleanup { okBackend with set_seed_status := 3 }
    rocrand_rng_type.ROCRAND_RNG_PSEUDO_XORWOW 1 5 0 rfl rfl).1 (by decide)

end rocrand_cpp
